import Mathlib

/-!
Verification development for the display controller in
`chromeremotecontrol/src/main.py` (class `DisplayController` plus the
`get_status` route helper).

The Python code is shallowly embedded: every external effect (running
`xrandr`, spawning a Chrome process with `subprocess.Popen`, the pychrome
`list_tab` / `Page` / `Runtime` calls, process termination) is a parameter
of the embedded function recording the outcome the outside world produced,
and the embedded function computes exactly the control flow the Python code
performs on those outcomes.  Machine integers do not occur (Python ints are
unbounded), so `Int`/`Nat` are used directly.  Strings are processed as
`List Char` so that every definition reduces inside the kernel.
-/

/-! ## Python string helpers

`charInfixOf needle hay` is Python's `needle in hay` on strings (substring
test).  `pySplitWs` is Python's `str.split()` with no argument: split on
whitespace, dropping empty tokens.  `splitOnChar sep` is Python's
`str.split(sep)` for a one-character separator (empty pieces kept).
`pyInt` is Python's `int(s)`: optional surrounding whitespace, optional
sign, decimal digits with single underscores allowed between digits.
-/

def charPrefixOf : List Char → List Char → Bool
  | [], _ => true
  | _ :: _, [] => false
  | a :: as, b :: bs => a == b && charPrefixOf as bs

def charInfixOf (needle : List Char) : List Char → Bool
  | [] => charPrefixOf needle []
  | b :: bs => charPrefixOf needle (b :: bs) || charInfixOf needle bs

def hasSub (needle : String) (hay : List Char) : Bool :=
  charInfixOf needle.toList hay

def isPyWs (c : Char) : Bool :=
  c = ' ' || c = '\t' || c = '\n' || c = '\r' || c = '\x0b' || c = '\x0c'

def splitBy (p : Char → Bool) : List Char → List (List Char)
  | [] => [[]]
  | c :: cs =>
    if p c then [] :: splitBy p cs
    else
      match splitBy p cs with
      | t :: ts => (c :: t) :: ts
      | [] => [[c]]

def splitOnChar (sep : Char) (cs : List Char) : List (List Char) :=
  splitBy (fun c => c = sep) cs

def pySplitWs (cs : List Char) : List (List Char) :=
  (splitBy isPyWs cs).filter (fun t => ¬ t.isEmpty)

def digitVal (c : Char) : Nat := c.toNat - 48

/-- Digit run with optional single underscores between digits (Python 3
`int` literal rule); the first character handed in is already known to be
a digit. -/
def pyDigits : List Char → Nat → Option Nat
  | [], acc => some acc
  | '_' :: rest, acc =>
    match rest with
    | c :: cs => if c.isDigit then pyDigits cs (acc * 10 + digitVal c) else none
    | [] => none
  | c :: cs, acc => if c.isDigit then pyDigits cs (acc * 10 + digitVal c) else none

def pyIntNonneg : List Char → Option Int
  | [] => none
  | c :: cs =>
    if c.isDigit then (pyDigits (c :: cs) 0).map Int.ofNat else none

def pyIntOfChars : List Char → Option Int
  | '+' :: rest => pyIntNonneg rest
  | '-' :: rest => (pyIntNonneg rest).map (fun n => -n)
  | cs => pyIntNonneg cs

def pyStrip (cs : List Char) : List Char :=
  ((cs.dropWhile isPyWs).reverse.dropWhile isPyWs).reverse

def pyInt (cs : List Char) : Option Int :=
  pyIntOfChars (pyStrip cs)

/-! ## Monitor layout resolver (`DisplayController._get_monitor_layout`) -/

structure Monitor where
  name : String
  width : Int
  height : Int
  x : Int
  y : Int
deriving DecidableEq

/-- Outcome of `subprocess.run(['xrandr'], ..., timeout=10)`:
`fail` is any raised exception (tool absent, timeout), `ok` carries the
return code and captured stdout. -/
inductive XrandrOutcome where
  | fail : XrandrOutcome
  | ok (returncode : Int) (stdout : String) : XrandrOutcome
deriving DecidableEq

/-- The geometry-token parsing of `_get_monitor_layout` (the block guarded
by `try ... except (ValueError, IndexError)`): split on `+`, `int()` the
offsets, split the resolution on `x` and `int()` width and height.
`none` is the caught `ValueError`/`IndexError` (line skipped). -/
def parseGeom (geometry : List Char) : Option (Int × Int × Int × Int) := do
  let res_pos := splitOnChar '+' geometry
  let resolution := res_pos.headD []
  let x_offset ← if 1 < res_pos.length then pyInt (res_pos.getD 1 []) else pure 0
  let y_offset ← if 2 < res_pos.length then pyInt (res_pos.getD 2 []) else pure 0
  match splitOnChar 'x' resolution with
  | [ws, hs] => do
    let w ← pyInt ws
    let h ← pyInt hs
    pure (w, h, x_offset, y_offset)
  | _ => none

/-- One iteration of the line loop in `_get_monitor_layout`.
`Except.error ()` is the `IndexError` raised by `parts[3]` when `primary`
is a token but there is no fourth token: that access sits outside the
inner `try`, so the exception escapes to the outer handler.
`.ok none` is a line that contributes no monitor (filtered out or
skipped); `.ok (some m)` is a parsed monitor. -/
def parseLine (line : List Char) : Except Unit (Option Monitor) :=
  if hasSub "connected" line && hasSub "+" line then
    let parts := pySplitWs line
    if 3 ≤ parts.length then
      let name : String := ⟨parts.headD []⟩
      if parts.contains "primary".toList then
        if h : 3 < parts.length then
          let geometry := parts.get ⟨3, h⟩
          if hasSub "x" geometry && hasSub "+" geometry then
            match parseGeom geometry with
            | some (w, hgt, x, y) => .ok (some ⟨name, w, hgt, x, y⟩)
            | none => .ok none
          else .ok none
        else .error ()
      else
        let geometry := parts.getD 2 []
        if hasSub "x" geometry && hasSub "+" geometry then
          match parseGeom geometry with
          | some (w, hgt, x, y) => .ok (some ⟨name, w, hgt, x, y⟩)
          | none => .ok none
        else .ok none
    else .ok none
  else .ok none

/-- The whole line loop: monitors accumulated in order; a raised
`IndexError` aborts the loop. -/
def parseLines : List (List Char) → Except Unit (List Monitor)
  | [] => .ok []
  | l :: ls =>
    match parseLine l with
    | .error e => .error e
    | .ok mo =>
      match parseLines ls with
      | .error e => .error e
      | .ok ms => .ok (mo.toList ++ ms)

deriving instance DecidableEq for Except

def defaultMonitors : List Monitor :=
  [⟨"default-1", 1920, 1080, 0, 0⟩, ⟨"default-2", 1920, 1080, 1920, 0⟩]

def fallbackMonitors : List Monitor :=
  [⟨"fallback-1", 1920, 1080, 0, 0⟩, ⟨"fallback-2", 1920, 1080, 1920, 0⟩]

/-- `stdout.split('\n')` of the captured xrandr output. -/
def stdoutLines (out : String) : List (List Char) :=
  splitOnChar '\n' out.toList

/-- `DisplayController._get_monitor_layout`.  A non-zero return code
leaves `monitors` empty, hitting the `if not monitors` default; an
exception anywhere inside the outer `try` (including the escaped
`IndexError` of `parseLine`) hits the `except` fallback. -/
def get_monitor_layout : XrandrOutcome → List Monitor
  | .fail => fallbackMonitors
  | .ok rc out =>
    if rc = 0 then
      match parseLines (stdoutLines out) with
      | .error _ => fallbackMonitors
      | .ok ms => if ms.isEmpty then defaultMonitors else ms
    else defaultMonitors

def monitorGeom (m : Monitor) : Int × Int × Int × Int :=
  (m.width, m.height, m.x, m.y)

/-! ## Launch plan (`start_chrome_instances`, spawn section)

The spawn loop iterates `enumerate(zip(display_ids, ports))` with
`display_ids = [1, 2]` and `ports = [9222, 9223]`, picking the display
string `displays[i] if i < len(displays) else displays[0]`, the window
rectangle from `monitors[i]` when `i < len(monitors)` and otherwise the
fallback rectangle `(i*1920, 0, 1920, 1080)`, and the profile directory
`/tmp/chrome_display{display_id}`.
-/

structure PosRect where
  x : Int
  y : Int
  width : Int
  height : Int
deriving DecidableEq

def monitorRect (m : Monitor) : PosRect :=
  { x := m.x, y := m.y, width := m.width, height := m.height }

structure DisplayTarget where
  display_id : Nat
  port : Nat
  displayStr : String
  posX : Int
  posY : Int
  width : Int
  height : Int
  profileDir : String
deriving DecidableEq

def display_ids : List Nat := [1, 2]

def chromePorts : List Nat := [9222, 9223]

/-- Parameters of one Chrome command line, as assembled for loop index `i`,
display id `d` and port `p`.  `displays` is never empty on any reachable
path (`_get_available_displays` always returns a nonempty list and a forced
configuration is only used when nonempty), so `displays[0]` is modelled by
`headD`. -/
def mkTarget (displays : List String) (rects : List PosRect) (i d p : Nat) : DisplayTarget :=
  let disp := if i < displays.length then displays.getD i ":0" else displays.headD ":0"
  let r := if i < rects.length then rects.getD i ⟨0, 0, 0, 0⟩
           else { x := (i : Int) * 1920, y := 0, width := 1920, height := 1080 }
  { display_id := d, port := p, displayStr := disp,
    posX := r.x, posY := r.y, width := r.width, height := r.height,
    profileDir := "/tmp/chrome_display" ++ toString d }

def buildTargets (displays : List String) (rects : List PosRect) : List DisplayTarget :=
  ((display_ids.zip chromePorts).enum).map (fun ip => mkTarget displays rects ip.1 ip.2.1 ip.2.2)

/-- `DisplayController._get_available_displays`: a truthy `force_displays`
wins; otherwise two monitors detected means `[':0', ':0']`, else `[':0']`.
The unset/`None` configuration is modelled by the empty list (both are
falsy in Python). -/
def get_available_displays (force_displays : List String) (layout : List Monitor) : List String :=
  if force_displays.isEmpty then
    if 2 ≤ layout.length then [":0", ":0"] else [":0"]
  else force_displays

/-! ## Controller state and environment -/

/-- The two state maps of `DisplayController`; only the key sets matter to
the specification, the mapped process/tab objects are opaque. -/
structure ControllerState where
  browsers : List Nat
  chrome_processes : List Nat
deriving DecidableEq

def emptyState : ControllerState := { browsers := [], chrome_processes := [] }

/-- Python dict insertion on the key set: keeps order, no duplicate keys. -/
def dinsert (d : Nat) (l : List Nat) : List Nat :=
  if d ∈ l then l else l ++ [d]

/-- How one tracked process behaves during cleanup: `running` is
`poll() is None`; `diesOnTerm` is whether `wait(timeout=3)` returns
before the timeout (otherwise the kill escalation runs). -/
structure ProcFate where
  running : Bool
  diesOnTerm : Bool
deriving DecidableEq

/-- Externally visible cleanup actions, in order. -/
inductive CleanupEvent where
  | tabStop (d : Nat)
  | terminate (d : Nat)
  | kill (d : Nat)
  | pkillSweep
  | rmProfile (dir : String)
deriving DecidableEq

def cleanupProc (fates : Nat → ProcFate) (d : Nat) : List CleanupEvent :=
  if (fates d).running then
    CleanupEvent.terminate d :: (if (fates d).diesOnTerm then [] else [CleanupEvent.kill d])
  else []

/-- `DisplayController.cleanup`.  When the `_cleaning_up` guard is set the
call returns immediately leaving the state untouched; otherwise it stops
every tab, terminates (escalating to kill) every tracked process, runs the
pkill pattern sweep, removes the profile directories and clears both maps.
Every internal exception is swallowed, so the function is total and never
reports an error to its caller. -/
def cleanup (guardActive : Bool) (fates : Nat → ProcFate) (s : ControllerState) :
    ControllerState × List CleanupEvent :=
  if guardActive then (s, [])
  else
    (emptyState,
      s.browsers.map CleanupEvent.tabStop
        ++ s.chrome_processes.flatMap (cleanupProc fates)
        ++ [CleanupEvent.pkillSweep]
        ++ [CleanupEvent.rmProfile "/tmp/chrome_display1",
            CleanupEvent.rmProfile "/tmp/chrome_display2"])

/-! ## Control session connection (retry loop) -/

/-- The `browser.list_tab()` retry loop for one display:
`attempt` is the loop index, `remaining` the number of iterations left
(initially `max_retries = 10`).  `listTab a = none` models the call
raising on attempt `a` (re-raised only when it is the last attempt);
`some ts` models a successful listing.  An empty successful listing does
not break the loop, and the `if not tabs` check after the loop turns an
exhausted loop into a failure. -/
def tabsGo (listTab : Nat → Option (List String)) : Nat → Nat → Except Unit (List String)
  | _, 0 => .error ()
  | attempt, remaining + 1 =>
    match listTab attempt with
    | some ts => if ts.isEmpty then tabsGo listTab (attempt + 1) remaining else .ok ts
    | none => if remaining = 0 then .error () else tabsGo listTab (attempt + 1) remaining

def max_retries : Nat := 10

def waitForTabs (listTab : Nat → Option (List String)) : Except Unit (List String) :=
  tabsGo listTab 0 max_retries

/-- The whole per-display connection block: the retry loop must deliver a
nonempty tab listing, then `tab.start()`, `Page.enable()` and
`Runtime.enable()` must not raise (`postOk`).  Any failure is caught by
the per-display `except` and only skips this display. -/
def connectDisplay (listTab : Nat → Option (List String)) (postOk : Bool) : Bool :=
  match waitForTabs listTab with
  | .ok _ => postOk
  | .error _ => false

/-! ## `start_chrome_instances` -/

/-- Everything the outside world decides during one start cycle. -/
structure StartEnv where
  /-- first `_get_monitor_layout` call (inside `_get_available_displays`) -/
  xr1 : XrandrOutcome
  /-- second `_get_monitor_layout` call (window positioning) -/
  xr2 : XrandrOutcome
  /-- whether `subprocess.Popen` succeeds for display id `d` -/
  spawnOk : Nat → Bool
  /-- `browser.list_tab()` outcome for display id `d`, attempt `a` -/
  listTab : Nat → Nat → Option (List String)
  /-- whether `tab.start()` / `Page.enable()` / `Runtime.enable()` succeed -/
  postOk : Nat → Bool
  /-- process behaviour if `cleanup` runs -/
  fates : Nat → ProcFate

structure Config where
  /-- `force_displays`; `[]` models the falsy `None`/empty cases -/
  force_displays : List String
  /-- `_manual_positions`; `[]` models the falsy unset/empty cases -/
  manual_positions : List PosRect
deriving DecidableEq

/-- The monitor rectangles used for window positioning (manual positions
win when truthy, else a fresh `_get_monitor_layout` call). -/
def positionRects (cfg : Config) (env : StartEnv) : List PosRect :=
  if cfg.manual_positions.isEmpty then (get_monitor_layout env.xr2).map monitorRect
  else cfg.manual_positions

def startTargets (cfg : Config) (env : StartEnv) : List DisplayTarget :=
  buildTargets (get_available_displays cfg.force_displays (get_monitor_layout env.xr1))
    (positionRects cfg env)

def spawnStep (env : StartEnv) (acc : List Nat) (t : DisplayTarget) : List Nat :=
  if env.spawnOk t.display_id = true then dinsert t.display_id acc else acc

/-- The spawn loop: a `Popen` failure hits `continue`, so it only skips
that display's map entry. -/
def spawnPhase (env : StartEnv) (ts : List DisplayTarget) (ps : List Nat) : List Nat :=
  ts.foldl (spawnStep env) ps

def connectStep (env : StartEnv) (procs : List Nat) (acc : List Nat) (d : Nat) : List Nat :=
  if d ∈ procs ∧ connectDisplay (env.listTab d) (env.postOk d) = true then dinsert d acc else acc

/-- The connection loop over `zip(display_ids, ports)`: displays without a
process entry are skipped, and a connection failure hits the per-display
`except ... continue`. -/
def connectLoop (env : StartEnv) (procs bs : List Nat) : List Nat :=
  display_ids.foldl (connectStep env procs) bs

/-- `DisplayController.start_chrome_instances`: kill stale processes,
build the plan, spawn, then connect.  `raise RuntimeError` when no process
spawned or no session connected is caught by the outer handler, which runs
`self.cleanup()` and re-raises; the returned `Option String` is the error
propagated to the caller. -/
def start_chrome_instances (cfg : Config) (env : StartEnv) (s : ControllerState) :
    ControllerState × Option String :=
  let ts := startTargets cfg env
  let procs := spawnPhase env ts s.chrome_processes
  if procs.isEmpty then
    ((cleanup false env.fates { browsers := s.browsers, chrome_processes := procs }).1,
      some "Failed to start any Chrome instances")
  else
    let brs := connectLoop env procs s.browsers
    if brs.isEmpty then
      ((cleanup false env.fates { browsers := brs, chrome_processes := procs }).1,
        some "Failed to connect to any Chrome instances")
    else ({ browsers := brs, chrome_processes := procs }, none)

/-- Per-display success condition of one start cycle from a clean state:
the spawn succeeded and the connection block succeeded. -/
def achieved (env : StartEnv) (d : Nat) : Bool :=
  env.spawnOk d && connectDisplay (env.listTab d) (env.postOk d)

/-! ## Per-display commands (`navigate_to_url`, `refresh_display`,
`get_current_url`) and the status view -/

/-- `navigate_to_url`: `navExc` is the exception message if
`tab.Page.navigate` raises, `none` if the command is issued successfully.
Nothing waits for the page load. -/
def navigate_to_url (browsers : List Nat) (navExc : Option String) (d : Nat) : Bool × String :=
  if d ∈ browsers then
    match navExc with
    | none => (true, "Navigation successful")
    | some e => (false, "Navigation failed: " ++ e)
  else (false, "Display not found")

def refresh_display (browsers : List Nat) (reloadExc : Option String) (d : Nat) : Bool × String :=
  if d ∈ browsers then
    match reloadExc with
    | none => (true, "Refresh successful")
    | some e => (false, "Refresh failed: " ++ e)
  else (false, "Display not found")

/-- `get_current_url`: `probe` is the outcome of evaluating
`window.location.href` in the tab. -/
def get_current_url (browsers : List Nat) (probe : Except String String) (d : Nat) :
    Option String × String :=
  if d ∈ browsers then
    match probe with
    | .ok v => (some v, "Success")
    | .error e => (none, "Failed to get URL: " ++ e)
  else (none, "Display not found")

/-- Python truthiness of the returned URL (`None` and `""` are falsy). -/
def urlTruthy : Option String → Bool
  | none => false
  | some u => !u.isEmpty

structure StatusEntry where
  url : Option String
  status : String
  message : String
deriving DecidableEq

def statusEntry (s : ControllerState) (probe : Nat → Except String String) (d : Nat) : StatusEntry :=
  if d ∈ s.browsers then
    let r := get_current_url s.browsers (probe d) d
    { url := r.1,
      status := if urlTruthy r.1 = true then "active" else "error",
      message := if urlTruthy r.1 = true then "OK" else r.2 }
  else { url := none, status := "inactive", message := "Display not started" }

/-- The `/status` route body for an initialised controller: one entry per
display id in the literal list `[1, 2]`. -/
def get_status (s : ControllerState) (probe : Nat → Except String String) :
    List (String × StatusEntry) :=
  [1, 2].map (fun d => ("display_" ++ toString d, statusEntry s probe d))

/-! ## Concrete configurations and environments used as witnesses -/

/-- `--single-display`: `force_displays = [':0']` (the `positioning_mode`
string computed in `__main__` is never handed to the controller). -/
def singleDisplayCfg : Config := { force_displays := [":0"], manual_positions := [] }

def autoCfg : Config := { force_displays := [], manual_positions := [] }

/-- A host without a usable xrandr where every spawn and connection
succeeds on the first attempt. -/
def envNoXrandr : StartEnv :=
  { xr1 := .fail, xr2 := .fail, spawnOk := fun _ => true,
    listTab := fun _ _ => some ["tab0"], postOk := fun _ => true,
    fates := fun _ => ⟨false, true⟩ }

/-- Display 1 spawns and connects; display 2's spawn fails. -/
def envPartial : StartEnv :=
  { xr1 := .fail, xr2 := .fail, spawnOk := fun d => d == 1,
    listTab := fun _ _ => some ["tab0"], postOk := fun _ => true,
    fates := fun _ => ⟨true, false⟩ }

/-! ## Helper lemmas -/

theorem mem_dinsert {x d : Nat} {l : List Nat} : x ∈ dinsert d l ↔ x = d ∨ x ∈ l := by
  unfold dinsert
  split
  · rename_i h
    constructor
    · exact fun hx => Or.inr hx
    · rintro (rfl | hx)
      · exact h
      · exact hx
  · simp [List.mem_append, or_comm]

theorem buildTargets_pair (displays : List String) (rects : List PosRect) :
    buildTargets displays rects =
      [mkTarget displays rects 0 1 9222, mkTarget displays rects 1 2 9223] := rfl

theorem spawnPhase_superset (env : StartEnv) :
    ∀ (ts : List DisplayTarget) (ps : List Nat) (x : Nat), x ∈ ps → x ∈ spawnPhase env ts ps := by
  intro ts
  induction ts with
  | nil => intro ps x hx; simpa [spawnPhase] using hx
  | cons t ts ih =>
    intro ps x hx
    have hstep : x ∈ spawnStep env ps t := by
      unfold spawnStep
      split
      · exact mem_dinsert.mpr (Or.inr hx)
      · exact hx
    simpa [spawnPhase, List.foldl_cons] using ih (spawnStep env ps t) x hstep

theorem foldl_connectStep_mono (env : StartEnv) (procs : List Nat) :
    ∀ (l bs : List Nat) (x : Nat), x ∈ bs → x ∈ l.foldl (connectStep env procs) bs := by
  intro l
  induction l with
  | nil => intro bs x hx; simpa using hx
  | cons d l ih =>
    intro bs x hx
    simp only [List.foldl_cons]
    apply ih
    unfold connectStep
    split
    · exact mem_dinsert.mpr (Or.inr hx)
    · exact hx

theorem foldl_connectStep_subset (env : StartEnv) (procs : List Nat) :
    ∀ (l bs : List Nat), (∀ x ∈ bs, x ∈ procs) →
      ∀ x ∈ l.foldl (connectStep env procs) bs, x ∈ procs := by
  intro l
  induction l with
  | nil => intro bs h x hx; exact h x (by simpa using hx)
  | cons d l ih =>
    intro bs h x hx
    refine ih (connectStep env procs bs d) ?_ x (by simpa using hx)
    intro y hy
    unfold connectStep at hy
    split at hy
    · rename_i hc
      rcases mem_dinsert.mp hy with rfl | hyb
      · exact hc.1
      · exact h y hyb
    · exact h y hy

/-! ## Claims about the monitor layout resolver -/

/-- C3: `resolve()` (here `_get_monitor_layout`) never fails and always
returns at least one descriptor; a failed/timed-out/absent tool invocation,
a non-zero return code, an output with zero parsed monitors, and an
aborted parse all yield exactly two default descriptors of size 1920×1080
at (0,0) and (1920,0). -/
theorem monitor_layout_fallback :
    (∀ o : XrandrOutcome, 1 ≤ (get_monitor_layout o).length)
    ∧ get_monitor_layout XrandrOutcome.fail = fallbackMonitors
    ∧ (∀ (rc : Int) (out : String), ¬ rc = 0 →
        get_monitor_layout (.ok rc out) = defaultMonitors)
    ∧ (∀ out : String, parseLines (stdoutLines out) = .ok [] →
        get_monitor_layout (.ok 0 out) = defaultMonitors)
    ∧ (∀ out : String, parseLines (stdoutLines out) = .error () →
        get_monitor_layout (.ok 0 out) = fallbackMonitors)
    ∧ defaultMonitors.map monitorGeom = [(1920, 1080, 0, 0), (1920, 1080, 1920, 0)]
    ∧ fallbackMonitors.map monitorGeom = [(1920, 1080, 0, 0), (1920, 1080, 1920, 0)] := by
  refine ⟨?_, rfl, ?_, ?_, ?_, rfl, rfl⟩
  · intro o
    cases o with
    | fail => decide
    | ok rc out =>
      simp only [get_monitor_layout]
      split
      · cases h : parseLines (stdoutLines out) with
        | error e =>
          show 1 ≤ fallbackMonitors.length
          decide
        | ok ms =>
          show 1 ≤ (if ms.isEmpty then defaultMonitors else ms).length
          cases ms with
          | nil => decide
          | cons m rest => simp
      · decide
  · intro rc out h
    simp [get_monitor_layout, h]
  · intro out h
    simp [get_monitor_layout, h]
  · intro out h
    simp [get_monitor_layout, h]

theorem monitor_layout_fallback_witness :
    get_monitor_layout (XrandrOutcome.ok 1 "nonsense") = defaultMonitors
    ∧ get_monitor_layout (XrandrOutcome.ok 0 "Screen 0: nothing here") = defaultMonitors
    ∧ get_monitor_layout (XrandrOutcome.ok 0 "BAD+ connected primary") = fallbackMonitors :=
  ⟨monitor_layout_fallback.2.2.1 1 "nonsense" (by decide),
   monitor_layout_fallback.2.2.2.1 "Screen 0: nothing here" (by decide),
   monitor_layout_fallback.2.2.2.2.1 "BAD+ connected primary" (by decide)⟩

/-- C7 counterexample: the claim says a malformed connected-output line
(including a `primary` marker shifting tokens) is skipped without aborting
the parse.  But the line `"BAD+ connected primary"` (a `primary` token with
no fourth token) raises an `IndexError` outside the inner `try`, which
aborts the whole enumeration: the well-formed `HDMI-1` line of the same
output is discarded and the fallback layout is returned instead. -/
theorem primary_token_aborts_parse :
    get_monitor_layout
        (XrandrOutcome.ok 0 "HDMI-1 connected 1920x1080+0+0\nBAD+ connected primary")
      = fallbackMonitors
    ∧ get_monitor_layout (XrandrOutcome.ok 0 "HDMI-1 connected 1920x1080+0+0")
      = [⟨"HDMI-1", 1920, 1080, 0, 0⟩]
    ∧ parseLine "BAD+ connected primary".toList = .error () :=
  ⟨by decide, by decide, by decide⟩

/-- C7 (amended): a line whose geometry fails to parse inside the inner
`try` (unparsable ints, wrong shape) is skipped and the remaining lines
are still parsed; but a connected line containing the token `primary` with
fewer than four whitespace tokens raises an uncaught `IndexError`, which
aborts the whole parse and makes the resolver return the fallback layout
(parsed monitors from other lines are discarded). -/
theorem malformed_geometry_skipped :
    (∀ (pre post : List (List Char)) (bad : List Char), parseLine bad = .ok none →
        parseLines (pre ++ bad :: post) = parseLines (pre ++ post))
    ∧ (∀ out : String, parseLines (stdoutLines out) = .error () →
        get_monitor_layout (.ok 0 out) = fallbackMonitors) := by
  constructor
  · intro pre post bad hbad
    induction pre with
    | nil =>
      cases h : parseLines post with
      | error e => simp [parseLines, hbad, h]
      | ok ms => simp [parseLines, hbad, h]
    | cons p pre ih =>
      cases hp : parseLine p with
      | error e => simp [parseLines, hp]
      | ok mo => simp [parseLines, hp, ih]
  · intro out h
    simp [get_monitor_layout, h]

theorem malformed_geometry_skipped_witness :
    parseLines (["HDMI-1 connected 1920x1080+0+0".toList]
        ++ "A connected axb+c".toList :: [])
      = parseLines (["HDMI-1 connected 1920x1080+0+0".toList] ++ [])
    ∧ get_monitor_layout (.ok 0 "BAD+ connected primary") = fallbackMonitors :=
  ⟨malformed_geometry_skipped.1 _ _ _ (by decide),
   malformed_geometry_skipped.2 _ (by decide)⟩

/-- C9 counterexample: nothing in `_get_monitor_layout` checks positivity
of the parsed sizes — the connected-output line `"A connected 0x0+0+0"`
produces a descriptor with width 0 and height 0, refuting the claim that
every produced descriptor has positive width and height. -/
theorem zero_size_monitor_accepted :
    get_monitor_layout (XrandrOutcome.ok 0 "A connected 0x0+0+0") = [⟨"A", 0, 0, 0, 0⟩]
    ∧ ¬ (∀ m ∈ get_monitor_layout (XrandrOutcome.ok 0 "A connected 0x0+0+0"),
          0 < m.width ∧ 0 < m.height) :=
  ⟨by decide, by decide⟩

/-- C9 (amended): the positivity invariant holds for the descriptors the
resolver makes up itself — every default and fallback descriptor has
positive width and height — while descriptors parsed from enumeration
output carry the parsed integers unchecked and may be zero or negative. -/
theorem default_layouts_positive :
    (defaultMonitors ++ fallbackMonitors).all
      (fun m => decide (0 < m.width) && decide (0 < m.height)) = true := by
  decide

/-! ## Claims about the launch plan and the state machine -/

/-- C10: whatever the configuration (forced displays, single-display mode,
manual positions, any number of detected monitors), a start cycle builds
exactly two targets with display ids 1 and 2, remote-debugging ports 9222
and 9223, and profile directories `/tmp/chrome_display1` and
`/tmp/chrome_display2`; and the status query reports exactly the keys
`display_1` and `display_2` for every controller state. -/
theorem fixed_two_display_plan (cfg : Config) (env : StartEnv) (s : ControllerState)
    (probe : Nat → Except String String) :
    (startTargets cfg env).map DisplayTarget.display_id = [1, 2]
    ∧ (startTargets cfg env).map DisplayTarget.port = [9222, 9223]
    ∧ (startTargets cfg env).map DisplayTarget.profileDir
        = ["/tmp/chrome_display1", "/tmp/chrome_display2"]
    ∧ (get_status s probe).map Prod.fst = ["display_1", "display_2"] :=
  ⟨rfl, rfl, rfl, rfl⟩

/-- C4 counterexample: the `positioning_mode = 'single'` string computed
for `--single-display` never reaches the controller; window positions are
taken from the per-index monitor layout in every mode.  With the
single-display configuration (`force_displays = [':0']`) on a host whose
xrandr query fails, the second instance is positioned at (1920, 0), not at
(0, 0) — refuting "every launch-plan target shares window position
(0,0)". -/
theorem single_mode_position_counterexample :
    (startTargets singleDisplayCfg envNoXrandr).map DisplayTarget.posX = [0, 1920]
    ∧ ¬ (∀ t ∈ startTargets singleDisplayCfg envNoXrandr, t.posX = 0 ∧ t.posY = 0) :=
  ⟨by decide, by decide⟩

/-- C4 (amended): in single-display mode every target does share the same
screen identifier `:0`, but window position and size still follow the
per-index monitor rectangles (detected layout or manual positions), so the
two targets coincide at (0,0) only if the layout says so. -/
theorem single_mode_same_screen (rects : List PosRect) :
    (buildTargets [":0"] rects).map DisplayTarget.displayStr = [":0", ":0"]
    ∧ ∀ (r1 r2 : PosRect) (rest : List PosRect),
        (buildTargets [":0"] (r1 :: r2 :: rest)).map
            (fun t => (t.posX, t.posY, t.width, t.height))
          = [(r1.x, r1.y, r1.width, r1.height), (r2.x, r2.y, r2.width, r2.height)] :=
  ⟨rfl, fun r1 r2 rest => by simp [buildTargets_pair, mkTarget]⟩

/-- C2: `cleanup` is total (all internal exceptions are swallowed, so no
error ever reaches the caller), callable from any state, and after any
run that was not suppressed by the `_cleaning_up` guard both state maps
are empty; a second call in sequence is a no-op on the already-empty
state.  A guarded (suppressed) call leaves the state untouched. -/
theorem cleanup_clears_state (s : ControllerState) (f g : Nat → ProcFate) :
    (cleanup false f s).1 = emptyState
    ∧ (cleanup false g (cleanup false f s).1).1 = emptyState
    ∧ (cleanup true f s).1 = s :=
  ⟨rfl, rfl, rfl⟩

/-- C5: `navigate_to_url`, `refresh_display` and `get_current_url` return
the NotFound result `"Display not found"` (without raising) whenever the
display id has no session, and `navigate_to_url` on a live session whose
`Page.navigate` command is issued without raising returns success — no
page-load wait or verification appears anywhere in the data flow. -/
theorem nav_requires_session (browsers : List Nat) (d : Nat)
    (navExc reloadExc : Option String) (probe : Except String String) :
    (d ∉ browsers →
      navigate_to_url browsers navExc d = (false, "Display not found")
      ∧ refresh_display browsers reloadExc d = (false, "Display not found")
      ∧ get_current_url browsers probe d = (none, "Display not found"))
    ∧ (d ∈ browsers → navigate_to_url browsers none d = (true, "Navigation successful")) := by
  constructor
  · intro h
    refine ⟨?_, ?_, ?_⟩ <;> simp [navigate_to_url, refresh_display, get_current_url, h]
  · intro h
    simp [navigate_to_url, h]

theorem nav_requires_session_witness :
    navigate_to_url [1] none 2 = (false, "Display not found")
    ∧ get_current_url [1] (.ok "about:blank") 2 = (none, "Display not found")
    ∧ navigate_to_url [1] none 1 = (true, "Navigation successful") :=
  ⟨((nav_requires_session [1] 2 none none (.ok "about:blank")).1 (by decide)).1,
   ((nav_requires_session [1] 2 none none (.ok "about:blank")).1 (by decide)).2.2,
   (nav_requires_session [1] 1 none none (.ok "about:blank")).2 (by decide)⟩

/-! ## Claims about the connection retry loop -/

theorem tabsGo_reaches_ok (listTab : Nat → Option (List String)) :
    ∀ (rem attempt i : Nat) (ts : List String), attempt ≤ i → i < attempt + rem →
      listTab i = some ts → ts ≠ [] →
      (∀ j, attempt ≤ j → j < i → listTab j = none ∨ listTab j = some []) →
      tabsGo listTab attempt rem = .ok ts := by
  intro rem
  induction rem with
  | zero => intro attempt i ts h1 h2 _ _ _; omega
  | succ rem ih =>
    intro attempt i ts h1 h2 hts hne hprev
    rcases Nat.eq_or_lt_of_le h1 with heq | hlt
    · subst heq
      have : ts.isEmpty = false := by
        cases ts
        · exact absurd rfl hne
        · rfl
      simp [tabsGo, hts, this]
    · rcases hprev attempt le_rfl hlt with hn | he
      · have hrem : ¬ rem = 0 := by omega
        simp only [tabsGo, hn, hrem, if_false]
        exact ih (attempt + 1) i ts (by omega) (by omega) hts hne
          (fun j hj1 hj2 => hprev j (by omega) hj2)
      · simp only [tabsGo, he, List.isEmpty_nil, if_true]
        exact ih (attempt + 1) i ts (by omega) (by omega) hts hne
          (fun j hj1 hj2 => hprev j (by omega) hj2)

theorem tabsGo_exhausts (listTab : Nat → Option (List String)) :
    ∀ (rem attempt : Nat),
      (∀ j, attempt ≤ j → j < attempt + rem → listTab j = none ∨ listTab j = some []) →
      tabsGo listTab attempt rem = .error () := by
  intro rem
  induction rem with
  | zero => intro attempt _; rfl
  | succ rem ih =>
    intro attempt h
    rcases h attempt le_rfl (by omega) with hn | he
    · by_cases hrem : rem = 0
      · subst hrem
        simp [tabsGo, hn]
      · simp only [tabsGo, hn, hrem, if_false]
        exact ih (attempt + 1) (fun j hj1 hj2 => h j (by omega) (by omega))
    · simp only [tabsGo, he, List.isEmpty_nil, if_true]
      exact ih (attempt + 1) (fun j hj1 hj2 => h j (by omega) (by omega))

/-- C6: the per-display connection polls `list_tab` with a bounded budget
of `max_retries = 10` attempts; the first successful listing with at least
one entry (attempts before it having raised or listed nothing) is
accepted, and if every attempt inside the budget raises or lists nothing
the loop fails; the failure only skips that display — sessions already in
the browsers map survive the connection loop.  (The 1-second spacing is
real time, outside this embedding: the code sleeps only between attempts
whose `list_tab` raised.) -/
theorem connect_retry_bounded :
    (∀ (listTab : Nat → Option (List String)) (i : Nat) (ts : List String),
        i < max_retries → listTab i = some ts → ts ≠ [] →
        (∀ j, j < i → listTab j = none ∨ listTab j = some []) →
        waitForTabs listTab = .ok ts)
    ∧ (∀ listTab : Nat → Option (List String),
        (∀ i, i < max_retries → listTab i = none ∨ listTab i = some []) →
        waitForTabs listTab = .error ())
    ∧ (∀ (env : StartEnv) (procs bs : List Nat) (x : Nat),
        x ∈ bs → x ∈ connectLoop env procs bs) := by
  refine ⟨?_, ?_, ?_⟩
  · intro f i ts hi hts hne hprev
    exact tabsGo_reaches_ok f max_retries 0 i ts (Nat.zero_le i) (by omega) hts hne
      (fun j _ hj => hprev j hj)
  · intro f h
    exact tabsGo_exhausts f max_retries 0 (fun j _ hj => h j (by omega))
  · intro env procs bs x hx
    exact foldl_connectStep_mono env procs display_ids bs x hx

theorem connect_retry_bounded_witness :
    waitForTabs (fun a => if a = 3 then some ["tab0"] else none) = .ok ["tab0"]
    ∧ waitForTabs (fun _ => some []) = .error ()
    ∧ 5 ∈ connectLoop envNoXrandr [] [5] :=
  ⟨connect_retry_bounded.1 (fun a => if a = 3 then some ["tab0"] else none) 3 ["tab0"]
      (by decide) (by decide) (by decide)
      (fun j hj => Or.inl (by simp [show ¬ j = 3 by omega])),
   connect_retry_bounded.2.1 (fun _ => some []) (fun i _ => Or.inr rfl),
   connect_retry_bounded.2.2 envNoXrandr [] [5] 5 (by decide)⟩

/-! ## Claims about the lifecycle coordinator -/

theorem start_result_cases (cfg : Config) (env : StartEnv) (s : ControllerState) :
    (start_chrome_instances cfg env s).1 = emptyState
    ∨ ((start_chrome_instances cfg env s).1.browsers
          = connectLoop env (spawnPhase env (startTargets cfg env) s.chrome_processes) s.browsers
        ∧ (start_chrome_instances cfg env s).1.chrome_processes
          = spawnPhase env (startTargets cfg env) s.chrome_processes) := by
  unfold start_chrome_instances
  cases h1 : (spawnPhase env (startTargets cfg env) s.chrome_processes).isEmpty
  · cases h2 : (connectLoop env (spawnPhase env (startTargets cfg env) s.chrome_processes)
        s.browsers).isEmpty
    · right
      simp [h1, h2]
    · left
      simp [h1, h2, cleanup, emptyState]
  · left
    simp [h1, cleanup, emptyState]

/-- C8: the `ControllerState` invariant — every display id holding a
session also holds a tracked process — is preserved by a start cycle (from
any state satisfying it) and by `cleanup` (guarded or not); the command
operations `navigate_to_url`/`refresh_display`/`get_current_url` and the
status view read only the browsers map and return no state, so they
preserve it trivially. -/
theorem session_subset_process_invariant (cfg : Config) (env : StartEnv) (s : ControllerState)
    (hinv : ∀ x ∈ s.browsers, x ∈ s.chrome_processes) :
    (∀ x ∈ (start_chrome_instances cfg env s).1.browsers,
        x ∈ (start_chrome_instances cfg env s).1.chrome_processes)
    ∧ (∀ (g : Bool) (f : Nat → ProcFate),
        ∀ x ∈ (cleanup g f s).1.browsers, x ∈ (cleanup g f s).1.chrome_processes) := by
  constructor
  · rcases start_result_cases cfg env s with h | ⟨hb, hp⟩
    · intro x hx
      rw [h] at hx
      simp [emptyState] at hx
    · intro x hx
      rw [hb] at hx
      rw [hp]
      refine foldl_connectStep_subset env _ display_ids s.browsers ?_ x hx
      intro y hy
      exact spawnPhase_superset env _ _ y (hinv y hy)
  · intro g f
    cases g
    · intro x hx
      simp [cleanup, emptyState] at hx
    · intro x hx
      simpa [cleanup] using hinv x (by simpa [cleanup] using hx)

theorem session_subset_process_invariant_witness :
    1 ∈ (start_chrome_instances autoCfg envNoXrandr emptyState).1.chrome_processes :=
  (session_subset_process_invariant autoCfg envNoXrandr emptyState
    (by intro x hx; simp [emptyState] at hx)).1 1 (by decide)

/-- C1: in a start cycle from a clean state, per-display spawn or
connection failures are absorbed — each display id ends up in the browsers
map exactly when its own spawn and connection succeeded, independent of
the other display — and `start_chrome_instances` propagates an error to
its caller if and only if zero displays achieved a session; on that total
failure `cleanup` has run, so the returned state is empty. -/
theorem start_error_iff_no_sessions (cfg : Config) (env : StartEnv) :
    ((start_chrome_instances cfg env emptyState).2.isSome = true ↔
      (achieved env 1 = false ∧ achieved env 2 = false))
    ∧ ((start_chrome_instances cfg env emptyState).2.isSome = true →
        (start_chrome_instances cfg env emptyState).1 = emptyState)
    ∧ ((start_chrome_instances cfg env emptyState).2 = none →
        ∀ d ∈ display_ids,
          (d ∈ (start_chrome_instances cfg env emptyState).1.browsers ↔
            achieved env d = true)) := by
  cases h1 : env.spawnOk 1 <;> cases h2 : env.spawnOk 2 <;>
    cases hc1 : connectDisplay (env.listTab 1) (env.postOk 1) <;>
    cases hc2 : connectDisplay (env.listTab 2) (env.postOk 2) <;>
    simp_all [start_chrome_instances, startTargets, buildTargets_pair, mkTarget, spawnPhase,
      spawnStep, connectLoop, connectStep, dinsert, achieved, display_ids, emptyState, cleanup]

theorem start_error_iff_no_sessions_witness :
    (start_chrome_instances singleDisplayCfg envPartial emptyState).2 = none
    ∧ 1 ∈ (start_chrome_instances singleDisplayCfg envPartial emptyState).1.browsers :=
  ⟨by decide,
   ((start_error_iff_no_sessions singleDisplayCfg envPartial).2.2 (by decide) 1
      (by decide)).mpr (by decide)⟩
